import Mathlib

/-!
# Verification of the mcp-navigator-go protocol client engine and transports

Shallow embedding of the MCP client engine (`pkg/client/client.go`), the
streaming-HTTP transport (`pkg/transport/http_streaming.go`) and the SSE
transport, together with theorems settling the specification claims.

Go `int64` values are modelled as `ℤ` (request ids start at 1 and are
incremented, so overflow is unreachable in any run we quantify over; the
`strconv.ParseInt` range check is modelled explicitly).  `float64` ids are
modelled by their exact rational value, with the Go `int64(f)` conversion
modelled as truncation toward zero (the defined behaviour for in-range
values).  Durations are modelled as `ℕ` ticks.
-/

namespace MCPNav

/-! ## Wire message model

The `pkg/mcp` message-model package is not under `src/`; its wire shape is
modelled from the spec (§3, §6) and from how `client.go` uses it: a message
carries `jsonrpc`, an `id` (number or string, absent on notifications), a
`method`, `params`, a `result` and an optional `error` with code + message.
-/

/-- A JSON-RPC id as it appears after Go JSON decoding: absent (`nil`),
an `int64` (locally constructed requests), a `float64` (JSON numbers
decode to `float64`, modelled by its exact rational value), a Go `int`,
or a string. These are exactly the cases `Client.isMatchingID` switches on. -/
inductive RpcId where
  | null
  | i64 (n : ℤ)
  | f64 (q : ℚ)
  | goInt (n : ℤ)
  | str (s : String)
deriving DecidableEq, Repr

/-- JSON-RPC error object: numeric code plus message. -/
structure RpcError where
  code : ℤ
  message : String
deriving DecidableEq, Repr

/-- Modelled from the spec: negotiated server name/version (§3 Session). -/
structure ServerInfo where
  name : String
  version : String
deriving DecidableEq, Repr

/-- Modelled from the spec: server capability flags (§3 Session). -/
structure ServerCapabilities where
  tools : Bool
  resources : Bool
  prompts : Bool
deriving DecidableEq, Repr

/-- Modelled from the spec: tool descriptor (name, human title, description;
schemas and icons are not needed by any claim and are omitted). -/
structure Tool where
  name : String
  title : String
  description : String
deriving DecidableEq, Repr

/-- Modelled from the spec: resource descriptor. -/
structure Resource where
  uri : String
  name : String
deriving DecidableEq, Repr

/-- Modelled from the spec: prompt descriptor. -/
structure Prompt where
  name : String
  description : String
deriving DecidableEq, Repr

/-- Modelled from the spec: `initialize` response payload. -/
structure InitializeResponse where
  protocolVersion : String
  capabilities : ServerCapabilities
  serverInfo : ServerInfo
deriving DecidableEq, Repr

/-- Modelled from the spec: `tools/list` response payload
(`\x7btools: [...], nextCursor?: string\x7d`; empty cursor = final page). -/
structure ListToolsResponse where
  tools : List Tool
  nextCursor : String
deriving DecidableEq, Repr

/-- Modelled from the spec: `tools/call` response payload. -/
structure CallToolResponse where
  content : List String
  isError : Bool
deriving DecidableEq, Repr

/-- Modelled from the spec: `resources/list` response payload. -/
structure ListResourcesResponse where
  resources : List Resource
deriving DecidableEq, Repr

/-- Modelled from the spec: `prompts/list` response payload. -/
structure ListPromptsResponse where
  prompts : List Prompt
deriving DecidableEq, Repr

/-- Modelled from the spec: `prompts/get` response payload. -/
structure GetPromptResponse where
  description : String
  messages : List String
deriving DecidableEq, Repr

/-- Modelled from the spec: `resources/read` response payload. -/
structure ReadResourceResponse where
  contents : List String
deriving DecidableEq, Repr

/-- The `result` field of a decoded message. `nilR` models a Go `nil`
result (the `parseResult` nil check); a typed constructor models a result
whose structured shape decodes into the given response type; `otherR`
models a result that does not decode into the expected shape. -/
inductive ResultPayload where
  | nilR
  | initR (r : InitializeResponse)
  | listToolsR (r : ListToolsResponse)
  | callToolR (r : CallToolResponse)
  | listResourcesR (r : ListResourcesResponse)
  | listPromptsR (r : ListPromptsResponse)
  | getPromptR (r : GetPromptResponse)
  | readResourceR (r : ReadResourceResponse)
  | otherR (s : String)
deriving DecidableEq, Repr

/-- Request parameters, projected to the fields the claims mention
(pagination cursor, tool/prompt name, resource URI). -/
inductive ReqParams where
  | noneP
  | initializeP (clientName clientVersion : String)
  | listToolsP (cursor : String)
  | callToolP (name : String)
  | listResourcesP
  | listPromptsP
  | getPromptP (name : String)
  | readResourceP (uri : String)
deriving DecidableEq, Repr

/-- Wire message (`mcp.Message`): jsonrpc version, optional id, method,
params, result, optional error. Exactly one of result/error is meaningful
on a response; a message with a method and no id is a notification. -/
structure Message where
  jsonrpc : String
  id : RpcId
  method : String
  params : ReqParams
  result : ResultPayload
  error : Option RpcError
deriving DecidableEq, Repr

/-- Modelled from the spec: `mcp.NewRequest(id, method, params)` --
the `pkg/mcp` package is not under `src/`; §4.1 gives the constructor. -/
def NewRequest (id : ℤ) (method : String) (params : ReqParams) : Message :=
  { jsonrpc := "2.0", id := .i64 id, method := method, params := params,
    result := .nilR, error := none }

/-- Modelled from the spec: `mcp.NewNotification(method, params)` -- a
notification has no id (§3: method set, id unset). -/
def NewNotification (method : String) : Message :=
  { jsonrpc := "2.0", id := .null, method := method, params := .noneP,
    result := .nilR, error := none }

/-! ## Decimal integer parsing and rendering

`Client.isMatchingID` calls `strconv.ParseInt(id, 10, 64)` on string ids.
We model base-10 `ParseInt`: an optional sign, a non-empty digit run, and
the `int64` range check.  `decimalStringOfInt` renders the decimal wire
string of an integer id.
-/

/-- The character for a decimal digit `d < 10`. -/
def digitChar (d : ℕ) : Char := Char.ofNat (48 + d)

/-- Numeric value of a decimal digit character, `none` on a non-digit. -/
def digitVal (ch : Char) : Option ℕ :=
  if ch.isDigit then some (ch.toNat - 48) else none

/-- Accumulating base-10 parse of a digit run; fails on any non-digit. -/
def parseDigitsAux (acc : ℕ) : List Char → Option ℕ
  | [] => some acc
  | ch :: rest =>
    match digitVal ch with
    | some d => parseDigitsAux (10 * acc + d) rest
    | none => none

/-- Parse a non-empty decimal digit run. -/
def parseNatDigits (cs : List Char) : Option ℕ :=
  if cs.isEmpty then none else parseDigitsAux 0 cs

/-- Largest `int64` value. -/
def int64Max : ℤ := 2 ^ 63 - 1

/-- Absolute value of the smallest `int64` value. -/
def int64MinAbs : ℕ := 2 ^ 63

/-- Model of Go `strconv.ParseInt(s, 10, 64)`: optional sign, non-empty
digit run, value within the `int64` range. -/
def parseInt64 (s : String) : Option ℤ :=
  match s.toList with
  | [] => none
  | ch :: rest =>
    if ch = '-' then
      (parseNatDigits rest).bind fun v =>
        if v ≤ int64MinAbs then some (-(v : ℤ)) else none
    else if ch = '+' then
      (parseNatDigits rest).bind fun v =>
        if (v : ℤ) ≤ int64Max then some (v : ℤ) else none
    else
      (parseNatDigits (ch :: rest)).bind fun v =>
        if (v : ℤ) ≤ int64Max then some (v : ℤ) else none

/-- Big-endian decimal digits of a natural number, with fuel (fuel `n + 1`
suffices since the argument strictly shrinks by division by 10). -/
def natDigitsAux : ℕ → ℕ → List Char
  | 0, _ => []
  | fuel + 1, n =>
    if n < 10 then [digitChar n]
    else natDigitsAux fuel (n / 10) ++ [digitChar (n % 10)]

/-- Big-endian decimal digits of a natural number. -/
def natDecimalDigits (n : ℕ) : List Char := natDigitsAux (n + 1) n

/-- The decimal wire string of an integer id (optional leading minus). -/
def decimalStringOfInt (n : ℤ) : String :=
  if n < 0 then String.mk ('-' :: natDecimalDigits (-n).toNat)
  else String.mk (natDecimalDigits n.toNat)

/-- Truncation of a rational toward zero: the Go conversion `int64(f)` for
an in-range `float64` value `f`. -/
def ratTrunc (q : ℚ) : ℤ := if 0 ≤ q then ⌊q⌋ else ⌈q⌉

/-- `Client.isMatchingID` (client.go:618-638): compares a decoded response
id against the issued `int64` request id, across the decoded types `int64`,
`float64` (converted via `int64(id)`), `int`, and string (via
`strconv.ParseInt`); a `nil` id never matches, nor does any other type. -/
def isMatchingID (responseID : RpcId) (requestID : ℤ) : Bool :=
  match responseID with
  | .null => false
  | .i64 n => n == requestID
  | .f64 q => ratTrunc q == requestID
  | .goInt n => n == requestID
  | .str s =>
    match parseInt64 s with
    | some parsedID => parsedID == requestID
    | none => false

/-! ## Client engine state and transport behaviour

`Client` (client.go:48-59) holds the transport, session flags, negotiated
server info/capabilities, the request-id counter and the operation timeout.

The transport underneath is abstracted by a deterministic script: whether
`IsConnected` currently reports true, the outcome of each successive `Send`
call, and a timed stream of `Receive` outcomes.  An exhausted receive
stream models a `Receive` call that blocks forever (nothing more arrives).
-/

/-- `Client` session state (client.go:48-59). `timeout` is the configured
operation timeout in ticks. -/
structure ClientState where
  connected : Bool
  initialized : Bool
  serverInfo : Option ServerInfo
  serverCapabilities : Option ServerCapabilities
  requestID : ℤ
  timeout : ℕ
deriving DecidableEq, Repr

/-- Outcome of one `Transport.Receive` call: a decoded message or an I/O
error. -/
inductive RecvOut where
  | recvMsg (m : Message)
  | recvError
deriving DecidableEq, Repr

/-- Deterministic transport behaviour for one engine run:
`transportConnected` is what `Transport.IsConnected` reports,
`sendOutcomes` gives the success of successive `Transport.Send` calls
(exhausted = success), and `recvEvents` is the stream of `Receive`
outcomes, each tagged with its arrival time; an exhausted stream means
`Receive` blocks forever. -/
structure TransportScript where
  transportConnected : Bool
  sendOutcomes : List Bool
  recvEvents : List (ℕ × RecvOut)
deriving DecidableEq, Repr

/-- Pop the next `Send` outcome from the script (success when exhausted). -/
def popSend (tr : TransportScript) : Bool × TransportScript :=
  match tr.sendOutcomes with
  | [] => (true, tr)
  | b :: rest => (b, { tr with sendOutcomes := rest })

/-- The state mutation performed when a send or receive fails inside
`sendRequest` (client.go:536-539, 556-559): mark the client disconnected
and uninitialized. -/
def flipDisconnected (c : ClientState) : ClientState :=
  { c with connected := false, initialized := false }

/-- Result of `Client.sendRequest`: the matching response, a failure, or
`blocked` -- the caller is stuck forever inside a blocking
`transport.Receive()` with nothing left to arrive. -/
inductive ReqFailure where
  | transportDisconnected
  | sendFailed
  | recvFailed
  | timedOut
deriving DecidableEq, Repr

inductive ReqResult where
  | ok (m : Message)
  | fail (e : ReqFailure)
  | blocked
deriving DecidableEq, Repr

/-- The receive loop of `Client.sendRequest` (client.go:547-572).  Each
iteration first polls the deadline (`select` with a `default` branch:
`responseCtx.Done()` fires once `deadline ≤ now`), then calls the blocking
`transport.Receive()`: a receive error marks the client disconnected and
returns; a message matching the request id is returned to the caller; any
other message is passed to `handleMessage` -- which only logs -- and is
thereby dropped.  With nothing left to arrive, `Receive` blocks forever
(`blocked`), since the deadline is only polled between arrivals. -/
def waitForResponse (c : ClientState) (reqId : ℤ) (deadline : ℕ) (now : ℕ) :
    List (ℕ × RecvOut) → ReqResult × ClientState × List (ℕ × RecvOut)
  | [] =>
    if deadline ≤ now then (.fail .timedOut, c, [])
    else (.blocked, c, [])
  | (t, out) :: rest =>
    if deadline ≤ now then (.fail .timedOut, c, (t, out) :: rest)
    else
      match out with
      | .recvError => (.fail .recvFailed, flipDisconnected c, rest)
      | .recvMsg m =>
        if isMatchingID m.id reqId then (.ok m, c, rest)
        else waitForResponse c reqId deadline (max now t) rest

/-- `Client.sendRequest` (client.go:524-573): atomically increment the
request id, build the request, fail fast if the transport reports
disconnected, send (marking the client disconnected on send failure), then
run the receive loop with deadline `c.timeout`.  The returned list records
every message passed to `Transport.Send`. -/
def sendRequest (c : ClientState) (tr : TransportScript)
    (method : String) (params : ReqParams) :
    ReqResult × ClientState × TransportScript × List Message :=
  let reqId := c.requestID + 1
  let c1 := { c with requestID := reqId }
  let request := NewRequest reqId method params
  if ¬ tr.transportConnected then
    (.fail .transportDisconnected, c1, tr, [])
  else
    let (ok, tr1) := popSend tr
    if ok then
      let (r, c2, restRecv) := waitForResponse c1 reqId c1.timeout 0 tr1.recvEvents
      (r, c2, { tr1 with recvEvents := restRecv }, [request])
    else
      (.fail .sendFailed, flipDisconnected c1, tr1, [request])

/-! ## Public engine operations -/

/-- Typed failure of a public operation, mirroring the error returns of
client.go: `errNotConnected` (Initialize before Connect), `notInitialized`
(the IsInitialized precondition), `connectionCheck` (CheckConnection
failure in CallTool), a wrapped `sendRequest` failure, a peer-reported
JSON-RPC error, a `parseResult` failure, and a failure to send the
initialized notification. -/
inductive OpError where
  | errNotConnected
  | notInitialized
  | connectionCheck
  | requestFailed (e : ReqFailure)
  | rpcError (e : RpcError)
  | parseError
  | notifySendFailed
deriving DecidableEq, Repr

/-- Result of a public operation; `blocked` propagates a receive loop that
never returns. -/
inductive OpResult (α : Type) where
  | ok (a : α)
  | err (e : OpError)
  | blocked
deriving DecidableEq, Repr

/-- Outcome record of one public operation: result, final client state,
remaining transport script, and every message passed to `Transport.Send`. -/
structure OpOutcome (α : Type) where
  result : OpResult α
  state : ClientState
  script : TransportScript
  sent : List Message
deriving Repr

/-- `Client.parseResult` specialised to a target type: a `nil` result is an
error; otherwise the result decodes iff its structured shape matches the
target (the typed payload constructor). -/
def parseResultWith {α : Type} (pick : ResultPayload → Option α)
    (result : ResultPayload) : Option α :=
  match result with
  | .nilR => none
  | r => pick r

/-- Shared tail of every list/call/read/get operation: run `sendRequest`,
surface request failures, surface a peer error object, then parse the
result into the expected response shape. -/
def requestAndParse {α : Type} (pick : ResultPayload → Option α)
    (c : ClientState) (tr : TransportScript)
    (method : String) (params : ReqParams) : OpOutcome α :=
  let (r, c1, tr1, sent) := sendRequest c tr method params
  match r with
  | .blocked => ⟨.blocked, c1, tr1, sent⟩
  | .fail e => ⟨.err (.requestFailed e), c1, tr1, sent⟩
  | .ok response =>
    match response.error with
    | some e => ⟨.err (.rpcError e), c1, tr1, sent⟩
    | none =>
      match parseResultWith pick response.result with
      | none => ⟨.err .parseError, c1, tr1, sent⟩
      | some a => ⟨.ok a, c1, tr1, sent⟩

/-- `Client.ListToolsWithCursor` (client.go:306-352): requires
`initialized`; sends one `tools/list` request carrying the cursor and
returns that single response's `Tools` field -- the `NextCursor` of the
parsed response is dropped, no follow-up request is issued. -/
def ListToolsWithCursor (c : ClientState) (tr : TransportScript)
    (cursor : String) : OpOutcome (List Tool) :=
  if ¬ c.initialized then ⟨.err .notInitialized, c, tr, []⟩
  else
    let o := requestAndParse
      (fun r => match r with | .listToolsR lr => some lr | _ => none)
      c tr "tools/list" (.listToolsP cursor)
    match o.result with
    | .ok lr => ⟨.ok lr.tools, o.state, o.script, o.sent⟩
    | .err e => ⟨.err e, o.state, o.script, o.sent⟩
    | .blocked => ⟨.blocked, o.state, o.script, o.sent⟩

/-- `Client.ListTools` (client.go:300-302): delegates to
`ListToolsWithCursor` with an empty cursor. -/
def ListTools (c : ClientState) (tr : TransportScript) :
    OpOutcome (List Tool) :=
  ListToolsWithCursor c tr ""

/-- `Client.CallTool` (client.go:355-392): requires `initialized`; then
`CheckConnection` (client.go:641-652) -- if the transport reports
disconnected the client is marked disconnected and the call fails --
then one `tools/call` request. -/
def CallTool (c : ClientState) (tr : TransportScript) (name : String) :
    OpOutcome CallToolResponse :=
  if ¬ c.initialized then ⟨.err .notInitialized, c, tr, []⟩
  else if ¬ tr.transportConnected then
    ⟨.err .connectionCheck, flipDisconnected c, tr, []⟩
  else
    requestAndParse
      (fun r => match r with | .callToolR cr => some cr | _ => none)
      c tr "tools/call" (.callToolP name)

/-- `Client.ListResources` (client.go:395-422). -/
def ListResources (c : ClientState) (tr : TransportScript) :
    OpOutcome (List Resource) :=
  if ¬ c.initialized then ⟨.err .notInitialized, c, tr, []⟩
  else
    let o := requestAndParse
      (fun r => match r with | .listResourcesR lr => some lr | _ => none)
      c tr "resources/list" .listResourcesP
    match o.result with
    | .ok lr => ⟨.ok lr.resources, o.state, o.script, o.sent⟩
    | .err e => ⟨.err e, o.state, o.script, o.sent⟩
    | .blocked => ⟨.blocked, o.state, o.script, o.sent⟩

/-- `Client.ListPrompts` (client.go:425-452). -/
def ListPrompts (c : ClientState) (tr : TransportScript) :
    OpOutcome (List Prompt) :=
  if ¬ c.initialized then ⟨.err .notInitialized, c, tr, []⟩
  else
    let o := requestAndParse
      (fun r => match r with | .listPromptsR lr => some lr | _ => none)
      c tr "prompts/list" .listPromptsP
    match o.result with
    | .ok lr => ⟨.ok lr.prompts, o.state, o.script, o.sent⟩
    | .err e => ⟨.err e, o.state, o.script, o.sent⟩
    | .blocked => ⟨.blocked, o.state, o.script, o.sent⟩

/-- `Client.GetPrompt` (client.go:455-487). -/
def GetPrompt (c : ClientState) (tr : TransportScript) (name : String) :
    OpOutcome GetPromptResponse :=
  if ¬ c.initialized then ⟨.err .notInitialized, c, tr, []⟩
  else
    requestAndParse
      (fun r => match r with | .getPromptR pr => some pr | _ => none)
      c tr "prompts/get" (.getPromptP name)

/-- `Client.ReadResource` (client.go:490-521). -/
def ReadResource (c : ClientState) (tr : TransportScript) (uri : String) :
    OpOutcome ReadResourceResponse :=
  if ¬ c.initialized then ⟨.err .notInitialized, c, tr, []⟩
  else
    requestAndParse
      (fun r => match r with | .readResourceR rr => some rr | _ => none)
      c tr "resources/read" (.readResourceP uri)

/-- `Client.Initialize` (client.go:172-235): requires `IsConnected` (and
nothing else -- there is no already-initialized check); performs the
`initialize` request/response exchange; on success stores server
info/capabilities, sets `initialized = true`, and finally sends the
fire-and-forget `notifications/initialized` notification; if that send
fails the error is returned with the session left initialized. -/
def Initialize (c : ClientState) (tr : TransportScript)
    (clientName clientVersion : String) : OpOutcome Unit :=
  if ¬ c.connected then ⟨.err .errNotConnected, c, tr, []⟩
  else
    let (r, c1, tr1, sent1) :=
      sendRequest c tr "initialize" (.initializeP clientName clientVersion)
    match r with
    | .blocked => ⟨.blocked, c1, tr1, sent1⟩
    | .fail e => ⟨.err (.requestFailed e), c1, tr1, sent1⟩
    | .ok response =>
      match response.error with
      | some e => ⟨.err (.rpcError e), c1, tr1, sent1⟩
      | none =>
        match parseResultWith
            (fun r => match r with | .initR ir => some ir | _ => none)
            response.result with
        | none => ⟨.err .parseError, c1, tr1, sent1⟩
        | some initResponse =>
          let c2 := { c1 with
            serverInfo := some initResponse.serverInfo,
            serverCapabilities := some initResponse.capabilities,
            initialized := true }
          let notification := NewNotification "notifications/initialized"
          let (ok2, tr2) := popSend tr1
          if ok2 then ⟨.ok (), c2, tr2, sent1 ++ [notification]⟩
          else ⟨.err .notifySendFailed, c2, tr2, sent1 ++ [notification]⟩

/-! ## Streaming HTTP transport (`pkg/transport/http_streaming.go`)

The HTTP stack (`net/http`, `encoding/json`) is external to the repository;
a POST is abstracted by its outcome (network error, or a response carrying
the `Mcp-Session-Id` header value -- empty string meaning absent -- and a
body), and JSON decoding by a `decode` oracle.  Each model returns the
error message (if any), the mutated transport (the Go receiver is a
pointer, so mutations made before a failure persist), and the record of
every POST issued.
-/

/-- Outcome of one HTTP POST round-trip: a network/body-read error, or a
response with a session header value (`""` = header absent), an HTTP
status, and a body (`""` = empty body). -/
inductive PostOutcome where
  | netError
  | reply (sessionHeader : String) (status : ℕ) (body : String)
deriving DecidableEq, Repr

/-- Record of one POST issued: target URL, the `Mcp-Session-Id` request
header attached (`""` = none), and the message carried. -/
structure PostRecord where
  url : String
  sessionHeader : String
  message : Message
deriving DecidableEq, Repr

/-- `StreamingHTTPTransport` state (http_streaming.go:17-27). -/
structure StreamingHTTPTransport where
  baseURL : String
  endpoint : String
  sessionID : String
  connected : Bool
  initialized : Bool
  lastResponse : Option Message
deriving DecidableEq, Repr

/-- `StreamingHTTPTransport.Send` (http_streaming.go:66-124): POST the
message to the fixed `baseURL + endpoint`, attaching the stored session id
as the `Mcp-Session-Id` request header when non-empty; on a reply, capture
a non-empty `Mcp-Session-Id` response header into the state; an empty body
(notification) leaves `lastResponse` untouched; otherwise decode the body
and buffer it for `Receive`. -/
def StreamingHTTPTransport.Send (h : StreamingHTTPTransport)
    (decode : String → Option Message) (message : Message)
    (outcome : PostOutcome) :
    Option String × StreamingHTTPTransport × List PostRecord :=
  if ¬ h.connected then (some "transport not connected", h, [])
  else
    let url := h.baseURL ++ h.endpoint
    let posted : PostRecord := ⟨url, h.sessionID, message⟩
    match outcome with
    | .netError => (some "failed to send request", h, [posted])
    | .reply hdr _ body =>
      let h1 := if hdr ≠ "" then { h with sessionID := hdr } else h
      if body = "" then (none, h1, [posted])
      else
        match decode body with
        | none => (some "failed to unmarshal response", h1, [posted])
        | some response =>
          (none, { h1 with lastResponse := some response }, [posted])

/-- `StreamingHTTPTransport.Receive` (http_streaming.go:127-143): return
the response buffered by the last `Send`, clearing the buffer; error when
nothing is buffered. -/
def StreamingHTTPTransport.Receive (h : StreamingHTTPTransport) :
    Except String Message × StreamingHTTPTransport :=
  if ¬ h.connected then (.error "transport not connected", h)
  else
    match h.lastResponse with
    | some response => (.ok response, { h with lastResponse := none })
    | none => (.error "no response available", h)

/-! ## SSE transport (`src/unnamed/part_007`)

The GET event stream is abstracted by the list of lines its body yields;
`bufio.Scanner` consumption advances through that list, and the retained
connection is the remaining suffix.
-/

/-- Outcome of the GET event-stream request: a network error or the lines
of the (so-far available) stream body. -/
inductive GetOutcome where
  | netError
  | stream (lines : List String)
deriving DecidableEq, Repr

/-- Record of one POST issued by the SSE transport. -/
structure SSEPost where
  url : String
  message : Message
deriving DecidableEq, Repr

/-- `SSETransport` state (part_007:19-31): the discovered session URL and
the retained event-stream body (remaining lines), plus the response
buffered by the most recent send. -/
structure SSETransport where
  baseURL : String
  endpoint : String
  sessionID : String
  sessionURL : String
  connected : Bool
  initialized : Bool
  lastResponse : Option Message
  sseConnection : Option (List String)
deriving DecidableEq, Repr

/-- Whether a stream line is a `data:` event line
(`strings.HasPrefix(line, "data: ")`). -/
def hasDataMarker (s : String) : Bool :=
  s.toList.take 6 == "data: ".toList

/-- The payload of a `data:` event line (`line[6:]`). -/
def dropDataMarker (s : String) : String := String.mk (s.toList.drop 6)

/-- ASCII whitespace, the cases of `strings.TrimSpace` relevant here. -/
def isSpaceChar (ch : Char) : Bool :=
  ch = ' ' ∨ ch = '\t' ∨ ch = '\n' ∨ ch = '\r'

/-- Model of `strings.TrimSpace`: drop leading and trailing whitespace. -/
def trimSpaceStr (s : String) : String :=
  String.mk (((s.toList.dropWhile isSpaceChar).reverse.dropWhile
    isSpaceChar).reverse)

/-- The scanner loop of `sendInitializeRequest` (part_007:118-130): scan
the stream for the first `data:` line; its trimmed payload is the session
endpoint, and the lines after it are the retained stream body. -/
def scanForEndpoint : List String → Option (String × List String)
  | [] => none
  | line :: rest =>
    if hasDataMarker line then
      some (trimSpaceStr (dropDataMarker line), rest)
    else scanForEndpoint rest

/-- `SSETransport.sendMessageToSession` (part_007:135-178): POST the
message to the discovered session URL; on an empty body clear the buffer
and mark initialized (the response may come through the stream); otherwise
decode the body, buffer it and mark initialized.  The HTTP status is not
inspected here. -/
def SSETransport.sendMessageToSession (h : SSETransport)
    (decode : String → Option Message) (message : Message)
    (post : PostOutcome) :
    Option String × SSETransport × List SSEPost :=
  let posted : SSEPost := ⟨h.sessionURL, message⟩
  match post with
  | .netError => (some "failed to send message", h, [posted])
  | .reply _ _ body =>
    if body = "" then
      (none, { h with lastResponse := none, initialized := true }, [posted])
    else
      match decode body with
      | none => (some "failed to unmarshal response", h, [posted])
      | some response =>
        (none, { h with lastResponse := some response, initialized := true },
          [posted])

/-- `SSETransport.sendInitializeRequest` (part_007:100-134): GET the event
stream at `baseURL + endpoint`; take the first `data:` line, set
`sessionURL := baseURL ++` its trimmed payload, retain the remaining
stream body as the open SSE connection, and immediately POST the handshake
message to the discovered session URL. -/
def SSETransport.sendInitializeRequest (h : SSETransport)
    (decode : String → Option Message) (message : Message)
    (get : GetOutcome) (post : PostOutcome) :
    Option String × SSETransport × List SSEPost :=
  match get with
  | .netError => (some "failed to establish SSE connection", h, [])
  | .stream lines =>
    match scanForEndpoint lines with
    | none => (some "failed to get session endpoint from SSE", h, [])
    | some (sessionEndpoint, rest) =>
      let h1 := { h with
        sessionURL := h.baseURL ++ sessionEndpoint,
        sseConnection := some rest }
      SSETransport.sendMessageToSession h1 decode message post

/-- `SSETransport.sendNotification` (part_007:181-213): POST to the session
URL (error if no session yet); an HTTP status `≥ 400` is a failure; the
body is ignored. -/
def SSETransport.sendNotification (h : SSETransport) (message : Message)
    (post : PostOutcome) : Option String × SSETransport × List SSEPost :=
  if h.sessionURL = "" then (some "session not established", h, [])
  else
    let posted : SSEPost := ⟨h.sessionURL, message⟩
    match post with
    | .netError => (some "failed to send notification", h, [posted])
    | .reply _ status _ =>
      if 400 ≤ status then (some "notification failed with status", h, [posted])
      else (none, h, [posted])

/-- `SSETransport.Send` (part_007:77-97): the first send of an
`initialize` request bootstraps the session via the event stream;
notifications (no id) go through `sendNotification`; everything else
requires an established session URL. -/
def SSETransport.Send (h : SSETransport)
    (decode : String → Option Message) (message : Message)
    (get : GetOutcome) (post : PostOutcome) :
    Option String × SSETransport × List SSEPost :=
  if ¬ h.connected then (some "transport not connected", h, [])
  else if message.method = "initialize" ∧ ¬ h.initialized then
    SSETransport.sendInitializeRequest h decode message get post
  else if message.id = .null then
    SSETransport.sendNotification h message post
  else if h.sessionURL = "" then (some "session not established", h, [])
  else SSETransport.sendMessageToSession h decode message post

/-- The scanner loop of `SSETransport.Receive` (part_007:244-258): read
lines from the retained stream until a `data:` line whose trimmed payload
decodes; lines that are not `data:` lines or fail to decode are consumed
and skipped. -/
def scanForMessage (decode : String → Option Message) :
    List String → Option (Message × List String)
  | [] => none
  | line :: rest =>
    if hasDataMarker line then
      match decode (trimSpaceStr (dropDataMarker line)) with
      | some response => some (response, rest)
      | none => scanForMessage decode rest
    else scanForMessage decode rest

/-- `SSETransport.Receive` (part_007:227-262): first return (and clear) a
response buffered by the most recent send; otherwise fall back to reading
the next `data:` event from the retained stream (whose consumed lines are
gone -- on a fruitless scan the body is exhausted). -/
def SSETransport.Receive (h : SSETransport)
    (decode : String → Option Message) :
    Except String Message × SSETransport :=
  if ¬ h.connected then (.error "transport not connected", h)
  else
    match h.lastResponse with
    | some response => (.ok response, { h with lastResponse := none })
    | none =>
      match h.sseConnection with
      | some lines =>
        match scanForMessage decode lines with
        | some (response, rest) =>
          (.ok response, { h with sseConnection := some rest })
        | none => (.error "no response available",
            { h with sseConnection := some [] })
      | none => (.error "no response available", h)

/-! ## Concrete scenarios

Explicit inputs used to evaluate the embedded code on the runs that decide
the claims.
-/

/-- A success response from the wire carrying numeric id `n` and payload
`r`. -/
def respWithId (n : ℤ) (r : ResultPayload) : Message :=
  { jsonrpc := "2.0", id := .i64 n, method := "", params := .noneP,
    result := r, error := none }

/-- A connected, initialized client about to issue its first request,
with a 1000-tick operation timeout. -/
def cReady : ClientState :=
  { connected := true, initialized := true, serverInfo := none,
    serverCapabilities := none, requestID := 0, timeout := 1000 }

/-- A connected but not yet initialized client. -/
def cConnected : ClientState :=
  { cReady with initialized := false }

/-- Payload of a `tools/call` response. -/
def callPayload : ResultPayload := .callToolR ⟨["content"], false⟩

/-- Transport script for the shared-receive race: both responses are
delivered, the one for request id 2 first. -/
def trRace : TransportScript :=
  { transportConnected := true, sendOutcomes := [],
    recvEvents := [(0, .recvMsg (respWithId 2 callPayload)),
                   (1, .recvMsg (respWithId 1 callPayload))] }

/-- Six tools across three pages of two. -/
def pageTool (k : ℕ) : Tool := ⟨"tool" ++ toString k, "", ""⟩

/-- Transport script of a paginating server: the reply to the first
`tools/list` request is page 1 (two tools) with a non-empty `nextCursor`;
the replies for the remaining pages are available. -/
def trPaged : TransportScript :=
  { transportConnected := true, sendOutcomes := [],
    recvEvents :=
      [(0, .recvMsg (respWithId 1
          (.listToolsR ⟨[pageTool 1, pageTool 2], "cursor-2"⟩))),
       (1, .recvMsg (respWithId 2
          (.listToolsR ⟨[pageTool 3, pageTool 4], "cursor-3"⟩))),
       (2, .recvMsg (respWithId 3
          (.listToolsR ⟨[pageTool 5, pageTool 6], ""⟩)))] }

/-- A transport on which nothing ever arrives: every `Receive` blocks. -/
def trSilent : TransportScript :=
  { transportConnected := true, sendOutcomes := [], recvEvents := [] }

/-- A client with the 1-tick deadline of the timeout scenario. -/
def cShortDeadline : ClientState := { cReady with timeout := 1 }

/-- The negotiated server metadata of the handshake scenarios. -/
def irDemo : InitializeResponse :=
  ⟨"2025-11-25", ⟨true, true, true⟩, ⟨"demo-server", "1.0"⟩⟩

/-- Transport script on which the `initialize` exchange succeeds but the
subsequent `notifications/initialized` send fails. -/
def trNotifyFail : TransportScript :=
  { transportConnected := true, sendOutcomes := [true, false],
    recvEvents := [(0, .recvMsg (respWithId 1 (.initR irDemo)))] }

/-- Transport script on which a repeated handshake would succeed again. -/
def trReinit : TransportScript :=
  { transportConnected := true, sendOutcomes := [],
    recvEvents := [(0, .recvMsg (respWithId 1 (.initR irDemo)))] }

/-- An already-initialized client (a completed earlier handshake). -/
def cInitialized : ClientState :=
  { cReady with serverInfo := some irDemo.serverInfo,
                serverCapabilities := some irDemo.capabilities }

/-- A notification arriving from the wire (no id). -/
def notifMsg : Message :=
  { jsonrpc := "2.0", id := .null, method := "notifications/progress",
    params := .noneP, result := .nilR, error := none }

/-- Timeout scenario script (arrival times are relative to each request's
own send, as each request's deadline context starts at its send): during
request 1 only a notification arrives, after the 1-tick deadline; the
response to the abandoned request id 1 and the response to request id 2
then arrive promptly during request 2. -/
def trLate : TransportScript :=
  { transportConnected := true, sendOutcomes := [],
    recvEvents := [(2, .recvMsg notifMsg),
                   (0, .recvMsg (respWithId 1 callPayload)),
                   (0, .recvMsg (respWithId 2 callPayload))] }

/-- Script whose first `Send` fails with an I/O error. -/
def trSendFail : TransportScript :=
  { transportConnected := true, sendOutcomes := [false], recvEvents := [] }

/-- Script whose first `Receive` fails with an I/O error. -/
def trRecvFail : TransportScript :=
  { transportConnected := true, sendOutcomes := [true],
    recvEvents := [(0, .recvError)] }

/-- A freshly connected SSE transport, session not yet discovered. -/
def sseBase : SSETransport :=
  { baseURL := "http://host", endpoint := "/sse", sessionID := "",
    sessionURL := "", connected := true, initialized := false,
    lastResponse := none, sseConnection := none }

/-- A freshly connected streaming HTTP transport. -/
def shtBase : StreamingHTTPTransport :=
  { baseURL := "http://host", endpoint := "/mcp", sessionID := "",
    connected := true, initialized := false, lastResponse := none }

/-- A concrete JSON decode oracle for the transport witnesses. -/
def demoDecode : String → Option Message := fun s =>
  if s = "INIT" then some (respWithId 1 (.initR irDemo))
  else if s = "EVT" then some (respWithId 2 callPayload)
  else none

/-- The concrete handshake request of the transport witnesses. -/
def initMsg : Message := NewRequest 1 "initialize" (.initializeP "app" "1.0")

/-! ## Lemmas on decimal parsing and rendering -/

theorem digitChar_isDigit {d : ℕ} (hd : d < 10) :
    (digitChar d).isDigit = true := by
  interval_cases d <;> decide

theorem digitVal_digitChar {d : ℕ} (hd : d < 10) :
    digitVal (digitChar d) = some d := by
  interval_cases d <;> decide

theorem parseDigitsAux_append (acc : ℕ) (xs ys : List Char) :
    parseDigitsAux acc (xs ++ ys) =
      (parseDigitsAux acc xs).bind fun a => parseDigitsAux a ys := by
  induction xs generalizing acc with
  | nil => simp [parseDigitsAux]
  | cons ch rest ih =>
    simp only [List.cons_append, parseDigitsAux]
    cases h : digitVal ch with
    | none => simp
    | some d => simp [ih]

theorem natDigitsAux_parse (fuel : ℕ) :
    ∀ n acc, n < fuel →
      parseDigitsAux acc (natDigitsAux fuel n) =
        some (acc * 10 ^ (natDigitsAux fuel n).length + n) := by
  induction fuel with
  | zero => intro n acc h; omega
  | succ f ih =>
    intro n acc h
    by_cases h10 : n < 10
    · simp only [natDigitsAux, if_pos h10, parseDigitsAux,
        digitVal_digitChar h10]
      simp [parseDigitsAux]
      ring
    · have hdiv : n / 10 < f := by omega
      simp only [natDigitsAux, if_neg h10]
      rw [parseDigitsAux_append, ih (n / 10) acc hdiv]
      have hm : n % 10 < 10 := Nat.mod_lt _ (by omega)
      simp only [Option.bind_some, parseDigitsAux, digitVal_digitChar hm]
      simp [parseDigitsAux, List.length_append]
      ring_nf
      omega

theorem natDigitsAux_ne_nil (fuel n : ℕ) (h : n < fuel) :
    natDigitsAux fuel n ≠ [] := by
  cases fuel with
  | zero => omega
  | succ f =>
    by_cases h10 : n < 10 <;> simp [natDigitsAux, h10]

theorem natDigitsAux_all_digits (fuel : ℕ) :
    ∀ n, n < fuel → ∀ c ∈ natDigitsAux fuel n, c.isDigit = true := by
  induction fuel with
  | zero => intro n h; omega
  | succ f ih =>
    intro n h c hc
    by_cases h10 : n < 10
    · simp [natDigitsAux, h10] at hc
      subst hc
      exact digitChar_isDigit h10
    · simp only [natDigitsAux, if_neg h10, List.mem_append,
        List.mem_singleton] at hc
      rcases hc with hc | hc
      · exact ih (n / 10) (by omega) c hc
      · subst hc
        exact digitChar_isDigit (Nat.mod_lt _ (by omega))

theorem parseNatDigits_natDecimalDigits (n : ℕ) :
    parseNatDigits (natDecimalDigits n) = some n := by
  have hne := natDigitsAux_ne_nil (n + 1) n (by omega)
  have hp := natDigitsAux_parse (n + 1) n 0 (by omega)
  unfold natDecimalDigits at *
  simp [parseNatDigits, List.isEmpty_iff, hne, hp]

theorem ratTrunc_intCast (n : ℤ) : ratTrunc ((n : ℚ)) = n := by
  unfold ratTrunc
  by_cases h : (0 : ℚ) ≤ (n : ℚ) <;> simp [h]

theorem toList_mk (l : List Char) : (String.mk l).toList = l := rfl

theorem parseInt64_decimalStringOfInt (n : ℤ)
    (h1 : -(2 ^ 63) ≤ n) (h2 : n < 2 ^ 63) :
    parseInt64 (decimalStringOfInt n) = some n := by
  by_cases hneg : n < 0
  · have hstr : decimalStringOfInt n =
        String.mk ('-' :: natDecimalDigits (-n).toNat) := by
      simp [decimalStringOfInt, hneg]
    rw [hstr]
    unfold parseInt64
    rw [toList_mk]
    simp only [reduceCtorEq, if_pos rfl]
    rw [parseNatDigits_natDecimalDigits]
    have hle : (-n).toNat ≤ int64MinAbs := by
      unfold int64MinAbs; omega
    simp [hle]
    omega
  · push_neg at hneg
    have hstr : decimalStringOfInt n =
        String.mk (natDecimalDigits n.toNat) := by
      simp [decimalStringOfInt, not_lt.mpr hneg]
    rw [hstr]
    unfold parseInt64
    rw [toList_mk]
    have hne := natDigitsAux_ne_nil (n.toNat + 1) n.toNat (by omega)
    cases hdd : natDecimalDigits n.toNat with
    | nil => exact absurd hdd hne
    | cons ch rest =>
      have hchd : ch.isDigit = true := by
        apply natDigitsAux_all_digits (n.toNat + 1) n.toNat (by omega)
        rw [show natDigitsAux (n.toNat + 1) n.toNat =
          natDecimalDigits n.toNat from rfl, hdd]
        simp
      have hminus : ch ≠ '-' := by
        intro hc; rw [hc] at hchd; simp [Char.isDigit] at hchd
      have hplus : ch ≠ '+' := by
        intro hc; rw [hc] at hchd; simp [Char.isDigit] at hchd
      simp only [if_neg hminus, if_neg hplus]
      rw [← hdd, parseNatDigits_natDecimalDigits]
      have hle : (n.toNat : ℤ) ≤ int64Max := by
        unfold int64Max; omega
      simp [hle]
      omega

theorem parseInt64_nonNumeric (s : String)
    (h : ∀ c ∈ s.toList, c.isDigit = false) : parseInt64 s = none := by
  unfold parseInt64
  cases hl : s.toList with
  | nil => rfl
  | cons ch rest =>
    have hch : ch.isDigit = false := h ch (by rw [hl]; simp)
    have hrest : ∀ c ∈ rest, c.isDigit = false := by
      intro c hc; exact h c (by rw [hl]; simp [hc])
    have hpn : parseNatDigits rest = none := by
      cases rest with
      | nil => rfl
      | cons c2 r2 =>
        have : c2.isDigit = false := hrest c2 (by simp)
        simp [parseNatDigits, parseDigitsAux, digitVal, this]
    by_cases hm : ch = '-'
    · simp [hm, hpn]
    · by_cases hp : ch = '+'
      · simp [hm, hp, hpn]
      · simp [hm, hp, parseNatDigits, parseDigitsAux, digitVal, hch]

/-! ## Claim theorems -/

/-- C5: for every pending request issued with numeric id `n` (ids are
issued by incrementing an `int64` from 1, hence in `int64` range), a
response whose id is the integer `n`, the floating-point value `n`, or the
decimal string of `n` all compare equal to the pending id under
`isMatchingID`; a response with a `nil` id, or with a non-numeric string
id (no decimal digit anywhere), matches no pending request. -/
theorem C5_id_matching_across_representations (n : ℤ)
    (h1 : -(2 ^ 63) ≤ n) (h2 : n < 2 ^ 63) :
    isMatchingID (.i64 n) n = true ∧
    isMatchingID (.f64 (n : ℚ)) n = true ∧
    isMatchingID (.str (decimalStringOfInt n)) n = true ∧
    isMatchingID .null n = false ∧
    (∀ s : String, (∀ c ∈ s.toList, c.isDigit = false) →
      isMatchingID (.str s) n = false) := by
  refine ⟨by simp [isMatchingID], ?_, ?_, rfl, ?_⟩
  · simp [isMatchingID, ratTrunc_intCast]
  · simp [isMatchingID, parseInt64_decimalStringOfInt n h1 h2]
  · intro s hs
    simp [isMatchingID, parseInt64_nonNumeric s hs]

/-- Witness for C5 at the concrete id 2. -/
theorem C5_id_matching_witness :
    (-(2 ^ 63) ≤ (2 : ℤ)) ∧ ((2 : ℤ) < 2 ^ 63) ∧
    (isMatchingID (.i64 2) 2 = true ∧
     isMatchingID (.f64 ((2 : ℤ) : ℚ)) 2 = true ∧
     isMatchingID (.str (decimalStringOfInt 2)) 2 = true ∧
     isMatchingID .null 2 = false ∧
     (∀ s : String, (∀ c ∈ s.toList, c.isDigit = false) →
       isMatchingID (.str s) 2 = false)) :=
  ⟨by decide, by decide,
    C5_id_matching_across_representations 2 (by decide) (by decide)⟩

/-- With the transport reporting connected, `sendRequest` passes exactly
one message to `Transport.Send`: the freshly built request. -/
theorem sendRequest_sent (c : ClientState) (tr : TransportScript)
    (m : String) (p : ReqParams) (htc : tr.transportConnected = true) :
    (sendRequest c tr m p).2.2.2 = [NewRequest (c.requestID + 1) m p] := by
  unfold sendRequest popSend
  simp only [htc]
  cases tr.sendOutcomes with
  | nil => simp
  | cons b rest => cases b <;> simp

/-- Scanning a stream whose first `data:` line is `dl` yields `dl`'s
trimmed payload and the lines after it. -/
theorem scanForEndpoint_skip (pre : List String) (dl : String)
    (rest : List String) (hpre : ∀ l ∈ pre, hasDataMarker l = false)
    (hdl : hasDataMarker dl = true) :
    scanForEndpoint (pre ++ dl :: rest) =
      some (trimSpaceStr (dropDataMarker dl), rest) := by
  induction pre with
  | nil => simp [scanForEndpoint, hdl]
  | cons l ls ih =>
    have hl : hasDataMarker l = false := hpre l (by simp)
    simp only [List.cons_append, scanForEndpoint, hl, Bool.false_eq_true,
      if_false]
    exact ih (fun x hx => hpre x (by simp [hx]))

/-- C1: the claimed dispatch loop does not exist -- every caller of
`sendRequest` runs its own receive loop directly on the transport, and a
response that does not match that caller's id is dropped by
`handleMessage`.  Evaluating the code on two requests whose responses
arrive as [id 2, id 1], with caller 1's loop performing both `Receive`
calls: caller 1 gets its own response, but caller 2's response has been
consumed and discarded (the stream is empty), so caller 2 blocks forever
and never receives it. -/
theorem C1_receive_loop_steals_concurrent_response :
    (CallTool cReady trRace "first").result = .ok ⟨["content"], false⟩ ∧
    (CallTool cReady trRace "first").script.recvEvents = [] ∧
    (CallTool (CallTool cReady trRace "first").state
      (CallTool cReady trRace "first").script "second").result = .blocked :=
  ⟨rfl, rfl, rfl⟩

/-- C2: against a server paginating three pages of two tools (first page
carrying `nextCursor = "cursor-2"`), `ListTools` issues exactly one
`tools/list` request and returns only the first page's two tools -- it
never follows `nextCursor`, contradicting its own comment ("this handles
pagination automatically by fetching all pages") and the claimed
concatenation of all six tools. -/
theorem C2_list_tools_stops_after_first_page :
    (ListTools cReady trPaged).result = .ok [pageTool 1, pageTool 2] ∧
    (ListTools cReady trPaged).sent.length = 1 ∧
    (ListTools cReady trPaged).result ≠
      .ok [pageTool 1, pageTool 2, pageTool 3, pageTool 4,
           pageTool 5, pageTool 6] :=
  ⟨rfl, rfl, by decide⟩

/-- C3: every list/call/read/get operation invoked while the session is
not initialized returns the not-initialized error locally, leaves the
client state untouched, and passes nothing to `Transport.Send`. -/
theorem C3_operations_require_initialized (c : ClientState)
    (tr : TransportScript) (h : c.initialized = false) :
    (∀ cursor, ListToolsWithCursor c tr cursor =
      ⟨.err .notInitialized, c, tr, []⟩) ∧
    ListTools c tr = ⟨.err .notInitialized, c, tr, []⟩ ∧
    (∀ name, CallTool c tr name = ⟨.err .notInitialized, c, tr, []⟩) ∧
    ListResources c tr = ⟨.err .notInitialized, c, tr, []⟩ ∧
    ListPrompts c tr = ⟨.err .notInitialized, c, tr, []⟩ ∧
    (∀ name, GetPrompt c tr name = ⟨.err .notInitialized, c, tr, []⟩) ∧
    (∀ uri, ReadResource c tr uri = ⟨.err .notInitialized, c, tr, []⟩) := by
  refine ⟨?_, ?_, ?_, ?_, ?_, ?_, ?_⟩ <;>
    simp [ListToolsWithCursor, ListTools, CallTool, ListResources,
      ListPrompts, GetPrompt, ReadResource, h]

/-- Witness for C3 on a concrete uninitialized client. -/
theorem C3_operations_require_initialized_witness :
    cConnected.initialized = false ∧
    ((∀ cursor, ListToolsWithCursor cConnected trSilent cursor =
       ⟨.err .notInitialized, cConnected, trSilent, []⟩) ∧
     ListTools cConnected trSilent =
       ⟨.err .notInitialized, cConnected, trSilent, []⟩ ∧
     (∀ name, CallTool cConnected trSilent name =
       ⟨.err .notInitialized, cConnected, trSilent, []⟩) ∧
     ListResources cConnected trSilent =
       ⟨.err .notInitialized, cConnected, trSilent, []⟩ ∧
     ListPrompts cConnected trSilent =
       ⟨.err .notInitialized, cConnected, trSilent, []⟩ ∧
     (∀ name, GetPrompt cConnected trSilent name =
       ⟨.err .notInitialized, cConnected, trSilent, []⟩) ∧
     (∀ uri, ReadResource cConnected trSilent uri =
       ⟨.err .notInitialized, cConnected, trSilent, []⟩)) :=
  ⟨rfl, C3_operations_require_initialized cConnected trSilent rfl⟩

/-- C4: evaluating the code on the claim's scenario.  Against a server
that never delivers anything, a request with a 1-tick deadline blocks
forever inside `transport.Receive()` -- the deadline is polled only
between arrivals, so no `TimeoutError` is produced.  When unrelated
traffic does arrive (a notification after the deadline), the request does
time out; the response that later arrives for that abandoned id is then
consumed and discarded by the next request's receive loop, which still
obtains its own response. -/
theorem C4_silent_server_blocks_instead_of_timeout :
    (sendRequest cShortDeadline trSilent "tools/call" (.callToolP "a")).1 =
      .blocked ∧
    (sendRequest cShortDeadline trSilent "tools/call" (.callToolP "a")).1 ≠
      .fail .timedOut ∧
    (sendRequest cShortDeadline trLate "tools/call" (.callToolP "a")).1 =
      .fail .timedOut ∧
    (sendRequest
      (sendRequest cShortDeadline trLate "tools/call" (.callToolP "a")).2.1
      (sendRequest cShortDeadline trLate "tools/call"
        (.callToolP "a")).2.2.1
      "tools/call" (.callToolP "b")).1 = .ok (respWithId 2 callPayload) :=
  ⟨rfl, by decide, rfl, rfl⟩

/-- C6 counterexample: the fire-and-forget `notifications/initialized`
send at the end of `Initialize` is a transport send whose I/O failure is
returned as an error while the session stays `connected = true,
initialized = true` -- the claimed flip to disconnected does not happen
for this send. -/
theorem C6_counterexample_notification_send_failure :
    (Initialize cConnected trNotifyFail "app" "1.0").result =
      .err .notifySendFailed ∧
    (Initialize cConnected trNotifyFail "app" "1.0").state.connected =
      true ∧
    (Initialize cConnected trNotifyFail "app" "1.0").state.initialized =
      true :=
  ⟨rfl, rfl, rfl⟩

/-- C6 (amended): a send or receive I/O failure inside the
request/response path (`sendRequest`) flips the session to
`connected = false, initialized = false` before the error is returned;
the one exception is the fire-and-forget initialized-notification send at
the end of `Initialize` (see the counterexample). -/
theorem C6_send_recv_failure_flips_state (c : ClientState) (m : String)
    (p : ReqParams) :
    (∀ tr : TransportScript, tr.transportConnected = true →
      ∀ srest, tr.sendOutcomes = false :: srest →
        (sendRequest c tr m p).1 = .fail .sendFailed ∧
        (sendRequest c tr m p).2.1.connected = false ∧
        (sendRequest c tr m p).2.1.initialized = false) ∧
    (∀ tr : TransportScript, tr.transportConnected = true →
      ∀ srest, tr.sendOutcomes = true :: srest →
      ∀ t rrest, tr.recvEvents = (t, .recvError) :: rrest →
        0 < c.timeout →
        (sendRequest c tr m p).1 = .fail .recvFailed ∧
        (sendRequest c tr m p).2.1.connected = false ∧
        (sendRequest c tr m p).2.1.initialized = false) := by
  constructor
  · intro tr htc srest hsend
    simp [sendRequest, popSend, htc, hsend, flipDisconnected]
  · intro tr htc srest hsend t rrest hrecv htime
    have hnt : ¬ (c.timeout ≤ 0) := by omega
    simp [sendRequest, popSend, waitForResponse, htc, hsend, hrecv, hnt,
      flipDisconnected]

/-- Witness for C6 (amended) on concrete failing scripts. -/
theorem C6_send_recv_failure_flips_state_witness :
    ((sendRequest cReady trSendFail "tools/call" (.callToolP "x")).1 =
       .fail .sendFailed ∧
     (sendRequest cReady trSendFail "tools/call"
       (.callToolP "x")).2.1.connected = false ∧
     (sendRequest cReady trSendFail "tools/call"
       (.callToolP "x")).2.1.initialized = false) ∧
    ((sendRequest cReady trRecvFail "tools/call" (.callToolP "x")).1 =
       .fail .recvFailed ∧
     (sendRequest cReady trRecvFail "tools/call"
       (.callToolP "x")).2.1.connected = false ∧
     (sendRequest cReady trRecvFail "tools/call"
       (.callToolP "x")).2.1.initialized = false) ∧
    0 < cReady.timeout :=
  ⟨(C6_send_recv_failure_flips_state cReady "tools/call"
      (.callToolP "x")).1 trSendFail rfl [] rfl,
   (C6_send_recv_failure_flips_state cReady "tools/call"
      (.callToolP "x")).2 trRecvFail rfl [] rfl 0 [] rfl (by decide),
   by decide⟩

/-- C7 counterexample: calling `Initialize` on an already-initialized
session does re-send -- a second `initialize` request (and a second
initialized notification) reach `Transport.Send`, and the whole handshake
is re-run successfully; there is no already-initialized check. -/
theorem C7_counterexample_reinitialize_resends :
    cInitialized.initialized = true ∧
    (Initialize cInitialized trReinit "app" "1.0").sent.map
      Message.method = ["initialize", "notifications/initialized"] ∧
    (Initialize cInitialized trReinit "app" "1.0").result = .ok () :=
  ⟨rfl, rfl, rfl⟩

/-- C7 (amended): `Initialize` performs no already-initialized check:
whenever the client believes itself connected and the transport is up, it
sends a (possibly second) `initialize` request over the transport,
regardless of `initialized`. -/
theorem C7_initialize_always_resends (c : ClientState)
    (tr : TransportScript) (nm vs : String) (hc : c.connected = true)
    (htc : tr.transportConnected = true) :
    (Initialize c tr nm vs).sent.head? =
      some (NewRequest (c.requestID + 1) "initialize"
        (.initializeP nm vs)) := by
  have hs := sendRequest_sent c tr "initialize" (.initializeP nm vs) htc
  unfold Initialize
  rcases hsr : sendRequest c tr "initialize" (.initializeP nm vs) with
    ⟨r, c1, tr1, sent1⟩
  rw [hsr] at hs
  simp only at hs
  simp only [hc, Bool.not_true, hsr]
  subst hs
  cases r with
  | blocked => simp
  | fail e => simp
  | ok response =>
    cases hre : response.error with
    | some e => simp [hre]
    | none =>
      simp only [hre]
      cases hpp : parseResultWith
          (fun r => match r with | .initR ir => some ir | _ => none)
          response.result with
      | none => simp [hpp]
      | some ir =>
        simp only [hpp]
        rcases hps : popSend tr1 with ⟨ok2, tr2⟩
        cases ok2 <;> simp [hps]

/-- Witness for C7 (amended) on an already-initialized client. -/
theorem C7_initialize_always_resends_witness :
    cInitialized.connected = true ∧
    trReinit.transportConnected = true ∧
    (Initialize cInitialized trReinit "app" "1.0").sent.head? =
      some (NewRequest (cInitialized.requestID + 1) "initialize"
        (.initializeP "app" "1.0")) :=
  ⟨rfl, rfl,
   C7_initialize_always_resends cInitialized trReinit "app" "1.0" rfl rfl⟩

/-- C10: when the `initialize` exchange succeeds but the subsequent
fire-and-forget `notifications/initialized` send fails, `Initialize`
returns an error while the session has already been marked
`initialized = true` with the negotiated server info and capabilities
retained (and stays connected) -- a failed `Initialize` is not atomic
with respect to session state. -/
theorem C10_initialize_not_atomic (c : ClientState) (tr : TransportScript)
    (nm vs : String) (t : ℕ) (m : Message) (ir : InitializeResponse)
    (hc : c.connected = true) (htc : tr.transportConnected = true)
    (hsend : tr.sendOutcomes = [true, false])
    (hrecv : tr.recvEvents = [(t, .recvMsg m)])
    (hid : isMatchingID m.id (c.requestID + 1) = true)
    (herr : m.error = none) (hres : m.result = .initR ir)
    (htime : 0 < c.timeout) :
    (Initialize c tr nm vs).result = .err .notifySendFailed ∧
    (Initialize c tr nm vs).state.initialized = true ∧
    (Initialize c tr nm vs).state.serverInfo = some ir.serverInfo ∧
    (Initialize c tr nm vs).state.serverCapabilities =
      some ir.capabilities ∧
    (Initialize c tr nm vs).state.connected = true := by
  have hnt : ¬ (c.timeout ≤ 0) := by omega
  simp [Initialize, sendRequest, popSend, waitForResponse, parseResultWith,
    hc, htc, hsend, hrecv, hid, herr, hres, hnt]

/-- Witness for C10 on the concrete notification-failure run. -/
theorem C10_initialize_not_atomic_witness :
    cConnected.connected = true ∧
    trNotifyFail.sendOutcomes = [true, false] ∧
    isMatchingID (respWithId 1 (.initR irDemo)).id
      (cConnected.requestID + 1) = true ∧
    ((Initialize cConnected trNotifyFail "app" "1.0").result =
       .err .notifySendFailed ∧
     (Initialize cConnected trNotifyFail "app" "1.0").state.initialized =
       true ∧
     (Initialize cConnected trNotifyFail "app" "1.0").state.serverInfo =
       some irDemo.serverInfo ∧
     (Initialize cConnected trNotifyFail
       "app" "1.0").state.serverCapabilities = some irDemo.capabilities ∧
     (Initialize cConnected trNotifyFail "app" "1.0").state.connected =
       true) :=
  ⟨rfl, rfl, by decide,
   C10_initialize_not_atomic cConnected trNotifyFail "app" "1.0" 0
     (respWithId 1 (.initR irDemo)) irDemo rfl rfl rfl rfl (by decide)
     rfl rfl (by decide)⟩

/-- C8: on the SSE transport, the first send carrying the handshake
request performs the bootstrap: it opens the GET event stream, takes the
first `data:` line's trimmed payload as the session-specific POST
endpoint, retains the remaining stream body as the open SSE connection,
and POSTs the handshake to the discovered endpoint, buffering the decoded
response; every receive first returns (and clears) a response buffered by
the most recent send, and otherwise falls back to reading the next
decodable `data:` event from the retained stream. -/
theorem C8_sse_bootstrap_and_receive (h : SSETransport)
    (decode : String → Option Message) (message : Message)
    (pre rest : List String) (dl : String) (hdrv : String) (st : ℕ)
    (body : String) (r : Message)
    (hconn : h.connected = true) (hinit : h.initialized = false)
    (hmeth : message.method = "initialize")
    (hpre : ∀ l ∈ pre, hasDataMarker l = false)
    (hdl : hasDataMarker dl = true)
    (hbody : body ≠ "") (hdec : decode body = some r) :
    SSETransport.Send h decode message (.stream (pre ++ dl :: rest))
        (.reply hdrv st body) =
      (none,
       { h with
          sessionURL := h.baseURL ++ trimSpaceStr (dropDataMarker dl),
          sseConnection := some rest,
          lastResponse := some r,
          initialized := true },
       [⟨h.baseURL ++ trimSpaceStr (dropDataMarker dl), message⟩]) ∧
    (∀ h2 : SSETransport, h2.connected = true → ∀ m2 : Message,
       h2.lastResponse = some m2 →
       SSETransport.Receive h2 decode =
         (.ok m2, { h2 with lastResponse := none })) ∧
    (∀ h2 : SSETransport, h2.connected = true →
       h2.lastResponse = none → ∀ ls r2 rest2,
       h2.sseConnection = some ls →
       scanForMessage decode ls = some (r2, rest2) →
       SSETransport.Receive h2 decode =
         (.ok r2, { h2 with sseConnection := some rest2 })) := by
  refine ⟨?_, ?_, ?_⟩
  · simp [SSETransport.Send, SSETransport.sendInitializeRequest,
      SSETransport.sendMessageToSession, hconn, hinit, hmeth,
      scanForEndpoint_skip pre dl rest hpre hdl, hbody, hdec]
  · intro h2 hc2 m2 hlast
    simp [SSETransport.Receive, hc2, hlast]
  · intro h2 hc2 hlast ls r2 rest2 hconn2 hscan
    simp [SSETransport.Receive, hc2, hlast, hconn2, hscan]

/-- Witness for C8 on a concrete event stream and handshake. -/
theorem C8_sse_bootstrap_and_receive_witness :
    sseBase.connected = true ∧ sseBase.initialized = false ∧
    initMsg.method = "initialize" ∧
    (∀ l ∈ [": ping"], hasDataMarker l = false) ∧
    hasDataMarker "data: /messages?sid=7" = true ∧
    ("INIT" : String) ≠ "" ∧
    demoDecode "INIT" = some (respWithId 1 (.initR irDemo)) ∧
    (SSETransport.Send sseBase demoDecode initMsg
        (.stream ([": ping"] ++ "data: /messages?sid=7" :: ["data: EVT"]))
        (.reply "" 200 "INIT") =
      (none,
       { sseBase with
          sessionURL := sseBase.baseURL ++
            trimSpaceStr (dropDataMarker "data: /messages?sid=7"),
          sseConnection := some ["data: EVT"],
          lastResponse := some (respWithId 1 (.initR irDemo)),
          initialized := true },
       [⟨sseBase.baseURL ++
           trimSpaceStr (dropDataMarker "data: /messages?sid=7"),
         initMsg⟩]) ∧
     (∀ h2 : SSETransport, h2.connected = true → ∀ m2 : Message,
        h2.lastResponse = some m2 →
        SSETransport.Receive h2 demoDecode =
          (.ok m2, { h2 with lastResponse := none })) ∧
     (∀ h2 : SSETransport, h2.connected = true →
        h2.lastResponse = none → ∀ ls r2 rest2,
        h2.sseConnection = some ls →
        scanForMessage demoDecode ls = some (r2, rest2) →
        SSETransport.Receive h2 demoDecode =
          (.ok r2, { h2 with sseConnection := some rest2 }))) :=
  ⟨rfl, rfl, rfl, by decide, by decide, by decide, rfl,
   C8_sse_bootstrap_and_receive sseBase demoDecode initMsg [": ping"]
     ["data: EVT"] "data: /messages?sid=7" "" 200 "INIT"
     (respWithId 1 (.initR irDemo)) rfl rfl rfl (by decide) (by decide)
     (by decide) rfl⟩

/-- C9: on the streaming HTTP transport, every send POSTs exactly once to
the single fixed endpoint `baseURL ++ endpoint`, attaching the currently
stored session token as the request header; a non-empty session header in
the response is captured into the state (an empty one leaves it
unchanged) and is attached on every subsequent send; receive returns (and
clears) the decoded body of the most recent POST response. -/
theorem C9_streaming_http_session (decode : String → Option Message) :
    (∀ h : StreamingHTTPTransport, h.connected = true →
      ∀ (message : Message) (outcome : PostOutcome),
        (StreamingHTTPTransport.Send h decode message outcome).2.2 =
          [⟨h.baseURL ++ h.endpoint, h.sessionID, message⟩]) ∧
    (∀ h : StreamingHTTPTransport, h.connected = true →
      ∀ (message : Message) (hdr : String) (st : ℕ) (body : String),
        (StreamingHTTPTransport.Send h decode message
            (.reply hdr st body)).2.1.sessionID =
          if hdr = "" then h.sessionID else hdr) ∧
    (∀ h : StreamingHTTPTransport, h.connected = true →
      ∀ (m1 : Message) (hdr : String) (st : ℕ) (body : String)
        (m2 : Message) (out2 : PostOutcome), hdr ≠ "" →
        (StreamingHTTPTransport.Send
            (StreamingHTTPTransport.Send h decode m1
              (.reply hdr st body)).2.1 decode m2 out2).2.2 =
          [⟨h.baseURL ++ h.endpoint, hdr, m2⟩]) ∧
    (∀ h : StreamingHTTPTransport, h.connected = true →
      ∀ (message : Message) (hdr : String) (st : ℕ) (body : String)
        (r : Message), body ≠ "" → decode body = some r →
        (StreamingHTTPTransport.Send h decode message
            (.reply hdr st body)).2.1.lastResponse = some r ∧
        StreamingHTTPTransport.Receive
            (StreamingHTTPTransport.Send h decode message
              (.reply hdr st body)).2.1 =
          (.ok r,
           { (StreamingHTTPTransport.Send h decode message
               (.reply hdr st body)).2.1 with lastResponse := none })) := by
  have hsend : ∀ (h : StreamingHTTPTransport), h.connected = true →
      ∀ (message : Message) (outcome : PostOutcome),
      (StreamingHTTPTransport.Send h decode message outcome).2.2 =
        [⟨h.baseURL ++ h.endpoint, h.sessionID, message⟩] := by
    intro h hc message outcome
    cases outcome with
    | netError => simp [StreamingHTTPTransport.Send, hc]
    | reply hdr st body =>
      by_cases hh : hdr = ""
      · by_cases hb : body = ""
        · simp [StreamingHTTPTransport.Send, hc, hh, hb]
        · cases hd : decode body <;>
            simp [StreamingHTTPTransport.Send, hc, hh, hb, hd]
      · by_cases hb : body = ""
        · simp [StreamingHTTPTransport.Send, hc, hh, hb]
        · cases hd : decode body <;>
            simp [StreamingHTTPTransport.Send, hc, hh, hb, hd]
  have hsess : ∀ (h : StreamingHTTPTransport), h.connected = true →
      ∀ (message : Message) (hdr : String) (st : ℕ) (body : String),
      (StreamingHTTPTransport.Send h decode message
          (.reply hdr st body)).2.1.sessionID =
        if hdr = "" then h.sessionID else hdr := by
    intro h hc message hdr st body
    by_cases hh : hdr = ""
    · by_cases hb : body = ""
      · simp [StreamingHTTPTransport.Send, hc, hh, hb]
      · cases hd : decode body <;>
          simp [StreamingHTTPTransport.Send, hc, hh, hb, hd]
    · by_cases hb : body = ""
      · simp [StreamingHTTPTransport.Send, hc, hh, hb]
      · cases hd : decode body <;>
          simp [StreamingHTTPTransport.Send, hc, hh, hb, hd]
  have hstate : ∀ (h : StreamingHTTPTransport), h.connected = true →
      ∀ (message : Message) (outcome : PostOutcome),
      (StreamingHTTPTransport.Send h decode message outcome).2.1.connected
          = true ∧
      (StreamingHTTPTransport.Send h decode message outcome).2.1.baseURL
          = h.baseURL ∧
      (StreamingHTTPTransport.Send h decode message outcome).2.1.endpoint
          = h.endpoint := by
    intro h hc message outcome
    cases outcome with
    | netError => simp [StreamingHTTPTransport.Send, hc]
    | reply hdr st body =>
      by_cases hh : hdr = ""
      · by_cases hb : body = ""
        · simp [StreamingHTTPTransport.Send, hc, hh, hb]
        · cases hd : decode body <;>
            simp [StreamingHTTPTransport.Send, hc, hh, hb, hd]
      · by_cases hb : body = ""
        · simp [StreamingHTTPTransport.Send, hc, hh, hb]
        · cases hd : decode body <;>
            simp [StreamingHTTPTransport.Send, hc, hh, hb, hd]
  refine ⟨hsend, hsess, ?_, ?_⟩
  · intro h hc m1 hdr st body m2 out2 hh
    obtain ⟨hc1, hb1, he1⟩ := hstate h hc m1 (.reply hdr st body)
    rw [hsend _ hc1 m2 out2, hb1, he1, hsess h hc m1 hdr st body,
      if_neg hh]
  · intro h hc message hdr st body r hb hd
    have hlast : (StreamingHTTPTransport.Send h decode message
        (.reply hdr st body)).2.1.lastResponse = some r := by
      by_cases hh : hdr = "" <;>
        simp [StreamingHTTPTransport.Send, hc, hh, hb, hd]
    obtain ⟨hc1, -, -⟩ := hstate h hc message (.reply hdr st body)
    refine ⟨hlast, ?_⟩
    simp [StreamingHTTPTransport.Receive, hc1, hlast]

/-- Witness for C9 on a concrete session capture run. -/
theorem C9_streaming_http_session_witness :
    shtBase.connected = true ∧
    (StreamingHTTPTransport.Send shtBase demoDecode initMsg
        (.reply "sess-1" 200 "INIT")).2.2 =
      [⟨shtBase.baseURL ++ shtBase.endpoint, shtBase.sessionID,
        initMsg⟩] ∧
    (StreamingHTTPTransport.Send shtBase demoDecode initMsg
        (.reply "sess-1" 200 "INIT")).2.1.sessionID =
      (if ("sess-1" : String) = "" then shtBase.sessionID
       else "sess-1") ∧
    (StreamingHTTPTransport.Send
        (StreamingHTTPTransport.Send shtBase demoDecode initMsg
          (.reply "sess-1" 200 "INIT")).2.1 demoDecode notifMsg
        .netError).2.2 =
      [⟨shtBase.baseURL ++ shtBase.endpoint, "sess-1", notifMsg⟩] ∧
    ((StreamingHTTPTransport.Send shtBase demoDecode initMsg
        (.reply "sess-1" 200 "INIT")).2.1.lastResponse =
      some (respWithId 1 (.initR irDemo)) ∧
     StreamingHTTPTransport.Receive
        (StreamingHTTPTransport.Send shtBase demoDecode initMsg
          (.reply "sess-1" 200 "INIT")).2.1 =
      (.ok (respWithId 1 (.initR irDemo)),
       { (StreamingHTTPTransport.Send shtBase demoDecode initMsg
           (.reply "sess-1" 200 "INIT")).2.1 with
          lastResponse := none })) :=
  ⟨rfl,
   (C9_streaming_http_session demoDecode).1 shtBase rfl initMsg
     (.reply "sess-1" 200 "INIT"),
   (C9_streaming_http_session demoDecode).2.1 shtBase rfl initMsg
     "sess-1" 200 "INIT",
   (C9_streaming_http_session demoDecode).2.2.1 shtBase rfl initMsg
     "sess-1" 200 "INIT" notifMsg .netError (by decide),
   (C9_streaming_http_session demoDecode).2.2.2 shtBase rfl initMsg
     "sess-1" 200 "INIT" (respWithId 1 (.initR irDemo)) (by decide)
     rfl⟩

end MCPNav
